import Mathlib

/-!
Verification of the kangaroo-lib parallel Pollard-kangaroo engine.

This file gives a shallow embedding in Lean 4 of the core of the C++
sources (`ecc_utils.cpp`, `kangaroo_solver.cpp`, `checkpoint.cpp`) and
settles the claims of the specification against it.

Modelling conventions:
* GMP `BigInt` values are `Nat` where the code keeps them non-negative and
  `Int` where intermediate differences may be negative (`mpz_sub`).
* `mpz_mod` with a positive modulus returns a non-negative residue; it is
  modelled by `Int.emod` followed by `Int.toNat`.
* `mpz_invert` (extended Euclid; the wrapper `bigint_mod_inverse` returns 0
  when no inverse exists) is modelled by a fuel-based extended Euclidean
  algorithm so that every definition is executable by the kernel.
* `ECPoint` is the inductive `Point`; the `is_infinity` flag of the struct
  becomes the `infinity` constructor.  The default-constructed struct has
  `x = y = 0`, which is what functions reading coordinates of an infinity
  struct would observe; `point_x` reflects that.
* Hex strings produced by `mpz_get_str` (no padding, "0" for zero, upper
  cased by the code) are modelled by big-endian digit-value lists
  (`hex_digits`) and rendered to `String` by `bigint_to_hex`.
* Wall-clock and thread identities are passed as explicit parameters.
-/

set_option maxRecDepth 20000
set_option maxHeartbeats 4000000

/-! ## secp256k1 constants (ecc_utils.cpp lines 9-41) -/

def secp256k1_p : Nat :=
  0xFFFFFFFFFFFFFFFFFFFFFFFFFFFFFFFFFFFFFFFFFFFFFFFFFFFFFFFEFFFFFC2F

def secp256k1_n : Nat :=
  0xFFFFFFFFFFFFFFFFFFFFFFFFFFFFFFFEBAAEDCE6AF48A03BBFD25E8CD0364141

def secp256k1_gx : Nat :=
  0x79BE667EF9DCBBAC55A06295CE870B07029BFCDB2DCE28D959F2815B16F81798

def secp256k1_gy : Nat :=
  0x483ADA7726A3C4655DA4FBFC0E1108A8FD17B448A68554199C47D08FFB10D4B8

/-! ## Points -/

inductive Point where
  | infinity : Point
  | affine (x y : Nat) : Point
deriving DecidableEq

/-- The x coordinate a C++ function reads from the `ECPoint` struct
(default-constructed coordinates are 0 when `is_infinity`). -/
def point_x (p : Point) : Nat :=
  match p with
  | .infinity => 0
  | .affine x _ => x

def secp256k1_g : Point := Point.affine secp256k1_gx secp256k1_gy

/-! ## Modular inverse (`bigint_mod_inverse`, ecc_utils.cpp lines 92-99)

`egcd_f fuel a b` returns `(g, x, y)` with `a*x + b*y = g = gcd a b`
whenever `b ≤ fuel`.  `mod_inverse a m` is `mpz_invert` wrapped as in the
source: the inverse in `[0, m)` when it exists, otherwise 0. -/

def egcd_f : Nat → Nat → Nat → Nat × Int × Int
  | 0, a, _ => (a, 1, 0)
  | _ + 1, a, 0 => (a, 1, 0)
  | f + 1, a, b + 1 =>
    let q := a / (b + 1)
    let r := a % (b + 1)
    let (g, x, y) := egcd_f f (b + 1) r
    (g, y, x - q * y)

def mod_inverse (a : Int) (m : Nat) : Nat :=
  let r : Nat := (a.emod m).toNat
  let (g, _, y) := egcd_f m m r
  if g = 1 then ((y.emod m)).toNat else 0

/-! ## Curve arithmetic (ecc_utils.cpp lines 154-248) -/

/-- `point_double` (ecc_utils.cpp lines 184-210). -/
def point_double (p : Point) : Point :=
  match p with
  | .infinity => p
  | .affine x y =>
    if y = 0 then .infinity
    else
      let x_squared : Nat := (x * x) % secp256k1_p
      let numerator : Nat := (3 * x_squared) % secp256k1_p
      let denominator : Nat := (2 * y) % secp256k1_p
      let denom_inv : Nat := mod_inverse (denominator : Int) secp256k1_p
      let s : Nat := (numerator * denom_inv) % secp256k1_p
      let s_squared : Nat := (s * s) % secp256k1_p
      let two_x : Nat := (2 * x) % secp256k1_p
      let x3 : Nat := (((s_squared : Int) - two_x).emod secp256k1_p).toNat
      let y3 : Nat := (((s : Int) * ((x : Int) - x3) - y).emod secp256k1_p).toNat
      .affine x3 y3

/-- `point_add` (ecc_utils.cpp lines 154-182). -/
def point_add (p1 p2 : Point) : Point :=
  match p1, p2 with
  | .infinity, _ => p2
  | _, .infinity => p1
  | .affine x1 y1, .affine x2 y2 =>
    if x1 = x2 then
      if y1 = y2 then point_double (.affine x1 y1)
      else .infinity
    else
      let dy : Int := (y2 : Int) - y1
      let dx : Int := (x2 : Int) - x1
      let dx_inv : Nat := mod_inverse dx secp256k1_p
      let s : Nat := ((dy * dx_inv).emod secp256k1_p).toNat
      let s_squared : Nat := (s * s) % secp256k1_p
      let x3 : Nat := (((s_squared : Int) - x1 - x2).emod secp256k1_p).toNat
      let y3 : Nat := (((s : Int) * ((x1 : Int) - x3) - y1).emod secp256k1_p).toNat
      .affine x3 y3

/-- The binary ladder loop of `point_multiply` (ecc_utils.cpp lines 221-227).
The fuel only bounds the iteration count; `fuel = k` always suffices since
the loop runs `bit-length k ≤ k` times. -/
def mul_go : Nat → Nat → Point → Point → Point
  | 0, _, _, result => result
  | f + 1, k, addend, result =>
    if k = 0 then result
    else
      mul_go f (k / 2) (point_double addend)
        (if k % 2 = 1 then point_add result addend else result)

/-- `point_multiply` (ecc_utils.cpp lines 212-230).  A non-positive `k`
never enters the loop (the `while` condition is `k > 0`), so the result is
the infinity-initialised accumulator. -/
def point_multiply (k : Int) (p : Point) : Point :=
  match p with
  | .infinity => p
  | .affine x y => mul_go k.toNat k.toNat (.affine x y) .infinity

/-- `point_equals` (ecc_utils.cpp lines 232-237). -/
def point_equals (p1 p2 : Point) : Bool :=
  match p1, p2 with
  | .infinity, .infinity => true
  | .infinity, .affine _ _ => false
  | .affine _ _, .infinity => false
  | .affine x1 y1, .affine x2 y2 => x1 == x2 && y1 == y2

/-- `point_is_on_curve` (ecc_utils.cpp lines 239-248). -/
def point_is_on_curve (p : Point) : Bool :=
  match p with
  | .infinity => true
  | .affine x y =>
    let y_squared : Nat := (y * y) % secp256k1_p
    let x_cubed : Nat := (x * x * x) % secp256k1_p
    let right_side : Nat := (x_cubed + 7) % secp256k1_p
    y_squared == right_side

/-! ## Hex digit machinery

`mpz_get_str(nullptr, 16, a)` produces the hex digits of `a` without
padding ("0" for zero); `bigint_to_hex` upper-cases them
(ecc_utils.cpp lines 122-131).  We model the string as its big-endian
list of digit values (`hex_digits`) and render chars when a `String` is
needed.  `of_hex_be` is the value a big-endian digit list denotes, i.e.
what `stoull(s, nullptr, 16)` / `stoi(s, nullptr, 16)` return on the
substrings the solver takes. -/

def hex_digits_f : Nat → Nat → List Nat
  | 0, n => [n % 16]
  | f + 1, n => if n < 16 then [n] else hex_digits_f f (n / 16) ++ [n % 16]

def hex_digits (n : Nat) : List Nat := hex_digits_f n n

def of_hex_be (l : List Nat) : Nat := l.foldl (fun a d => 16 * a + d) 0

def hex_digit_char (d : Nat) : Char :=
  Char.ofNat (if d < 10 then 48 + d else 55 + d)

/-- `bigint_to_hex` (ecc_utils.cpp lines 122-131): upper-case hex, no
padding, "0" for zero. -/
def bigint_to_hex (a : Nat) : String :=
  String.mk ((hex_digits a).map hex_digit_char)

/-- Hex rendering of a possibly negative `mpz` value (`mpz_get_str`
prefixes a minus sign). -/
def int_to_hex (a : Int) : String :=
  if a < 0 then String.mk ('-' :: ((hex_digits (-a).toNat).map hex_digit_char))
  else bigint_to_hex a.toNat

/-- Value of one hex character as `mpz_set_str` base 16 reads it.  The
source never validates its hex input (`hex_to_bigint` ignores the
`mpz_set_str` return code), and all inputs considered in this file are
well-formed hex, so unknown characters are given value 0. -/
def hex_char_val (c : Char) : Nat :=
  if '0' ≤ c ∧ c ≤ '9' then c.toNat - 48
  else if 'a' ≤ c ∧ c ≤ 'f' then c.toNat - 87
  else if 'A' ≤ c ∧ c ≤ 'F' then c.toNat - 55
  else 0

def hex_chars_to_nat (l : List Char) : Nat :=
  l.foldl (fun a c => 16 * a + hex_char_val c) 0

/-- The `0x`-stripping done by `hex_to_bigint` and `hex_to_point`
(ecc_utils.cpp lines 133-144 and 267-270). -/
def strip_0x (s : List Char) : List Char :=
  match s with
  | '0' :: 'x' :: rest => rest
  | other => other

/-- `hex_to_bigint` (ecc_utils.cpp lines 133-144). -/
def hex_to_bigint (s : String) : Nat :=
  hex_chars_to_nat (strip_0x s.data)

/-- `hex_to_point` (ecc_utils.cpp lines 263-305).  `none` models the
`false` return.  The 66-char branch ("compressed format") computes
`is_even`, `x_cubed` and `y_squared` but never uses them: it stores the
placeholder `y = 1` (source comment: a real implementation would need a
modular square root) and returns `true` without any curve check.  The
128-char branch splits `x||y` and returns `point_is_on_curve`. -/
def hex_to_point (hex : String) : Option Point :=
  let cs := hex.data
  if cs.length < 2 then none
  else
    let clean := strip_0x cs
    if clean.length = 66 && (clean.headD 'X' == '0') then
      some (Point.affine (hex_chars_to_nat (clean.drop 2)) 1)
    else if clean.length = 128 then
      let x := hex_chars_to_nat (clean.take 64)
      let y := hex_chars_to_nat (clean.drop 64)
      if point_is_on_curve (Point.affine x y) then some (Point.affine x y)
      else none
    else none

/-! ## Distinguished-point predicate and jump index
(kangaroo_solver.cpp lines 228-240 and 318-326) -/

/-- `is_distinguished` on the x-coordinate value: take the hex string of
`x`; if it has at least 8 characters, parse the last 8 as an integer
(that is `of_hex_be` of the last 8 digits) and test it against the
configured mask; otherwise return `false`. -/
def is_distinguished_x (x mask : Nat) : Bool :=
  if 8 ≤ (hex_digits x).length then
    (of_hex_be ((hex_digits x).drop ((hex_digits x).length - 8)) &&& mask) == 0
  else false

/-- `KangarooSolver::is_distinguished` (kangaroo_solver.cpp lines 228-240). -/
def is_distinguished (p : Point) (mask : Nat) : Bool :=
  is_distinguished_x (point_x p) mask

/-- `KangarooSolver::get_jump_index` on the x-coordinate value
(kangaroo_solver.cpp lines 318-326): if the hex string of `x` has at
least 2 characters, parse the last 2 and reduce mod the jump-table size
(256 after initialisation); otherwise return 0. -/
def get_jump_index_x (x : Nat) : Nat :=
  if 2 ≤ (hex_digits x).length then
    of_hex_be ((hex_digits x).drop ((hex_digits x).length - 2)) % 256
  else 0

def get_jump_index (p : Point) : Nat := get_jump_index_x (point_x p)

/-! ## Bit length (`bigint_bit_length` = `mpz_sizeinbase(a, 2)`,
ecc_utils.cpp lines 117-119; returns 1 for 0). -/

def bit_len_f : Nat → Nat → Nat
  | 0, _ => 0
  | f + 1, n => if n = 0 then 0 else bit_len_f f (n / 2) + 1

def size_in_base2 (n : Nat) : Nat :=
  if n = 0 then 1 else bit_len_f n n

/-! ## The solver state (kangaroo_solver.h / kangaroo_solver.cpp)

The DP table `std::unordered_map<std::string, DistinguishedPoint>` is keyed
by `point_to_string(p) = bigint_to_hex(x) ++ ":" ++ bigint_to_hex(y)`
(kangaroo_solver.cpp lines 328-330).  Hex rendering is injective and ':'
is not a hex digit, so two points produce the same key exactly when their
coordinate pairs coincide; the model therefore keys the table by the
coordinate pair.  The struct member `distance` is the hex string
`bigint_to_hex(distance)` of a non-negative value; hex round-trips, so the
model stores the value itself.  Thread handles are modelled by their
count. -/

structure DistinguishedPoint where
  point : Point
  distance : Nat
  is_tame : Bool
  timestamp : Nat
deriving DecidableEq

/-- `point_to_string`'s key, coordinates of the struct (an infinity struct
carries its default coordinates `x = y = 0`). -/
def point_key (p : Point) : Nat × Nat :=
  match p with
  | .infinity => (0, 0)
  | .affine x y => (x, y)

structure KangarooSolver where
  target_point : Point := .affine 0 0
  range_start : Nat := 0
  range_end : Nat := 0
  num_threads : Nat := 1
  distinguished_bits : Nat := 20
  distinguished_mask : Nat := 0
  running : Bool := false
  solved : Bool := false
  total_jumps : Nat := 0
  total_distinguished_points : Nat := 0
  total_collisions : Nat := 0
  worker_threads : Nat := 0
  dp_table : List ((Nat × Nat) × DistinguishedPoint) := []
  jump_distances : List Nat := []
  jump_points : List Point := []
  solution_key : Int := 0
  start_time : Nat := 0
deriving DecidableEq

/-! ## Jump table precomputation (kangaroo_solver.cpp lines 288-316) -/

def base_jump_bits (rs re : Nat) : Nat :=
  let range_bits : Int := (size_in_base2 (re - rs) : Int)
  (max 1 (range_bits / 2 - 8)).toNat

def precompute_jump_distances (rs re : Nat) : List Nat :=
  (List.range 256).map (fun i => 2 ^ base_jump_bits rs re + (i + 1))

def precompute_jump_points (rs re : Nat) : List Point :=
  (precompute_jump_distances rs re).map
    (fun d : Nat => point_multiply (Int.ofNat d) secp256k1_g)

/-! ## initialize / start / stop (kangaroo_solver.cpp lines 29-115)

`init_solver` models `KangarooSolver::initialize`.  Note the order in the
source: the public key is parsed first (failure returns before the ranges
are stored); the ranges are stored before the `range_start >= range_end`
check (failure at that point leaves them set); thread count and dp bits
are clamped, the mask is derived and the jump table precomputed. -/

def init_solver (s : KangarooSolver)
    (pubkey_hex range_start_hex range_end_hex : String)
    (threads dist_bits : Int) : Bool × KangarooSolver :=
  match hex_to_point pubkey_hex with
  | none => (false, s)
  | some pt =>
    let rs := hex_to_bigint range_start_hex
    let re := hex_to_bigint range_end_hex
    if re ≤ rs then
      (false, { s with target_point := pt, range_start := rs, range_end := re })
    else
      let nt : Nat := (max 1 (min 64 threads)).toNat
      let db : Nat := (max 8 (min 32 dist_bits)).toNat
      (true, { s with
        target_point := pt, range_start := rs, range_end := re,
        num_threads := nt, distinguished_bits := db,
        distinguished_mask := 2 ^ db - 1,
        jump_distances := precompute_jump_distances rs re,
        jump_points := precompute_jump_points rs re })

/-- `KangarooSolver::start` (kangaroo_solver.cpp lines 72-97): rejected
while running; otherwise sets the flags, records the start time, clears
the DP table and the three counters, and spawns `num_threads` workers. -/
def start (s : KangarooSolver) (now : Nat) : Bool × KangarooSolver :=
  if s.running then (false, s)
  else
    (true, { s with
      running := true, solved := false, start_time := now,
      dp_table := [], total_jumps := 0,
      total_distinguished_points := 0, total_collisions := 0,
      worker_threads := s.num_threads })

/-- `KangarooSolver::stop` (kangaroo_solver.cpp lines 99-115): returns at
once when not running; otherwise clears `running`, joins and clears the
worker threads. -/
def stop (s : KangarooSolver) : KangarooSolver :=
  if s.running = false then s
  else { s with running := false, worker_threads := 0 }

def is_running (s : KangarooSolver) : Bool := s.running

def is_solved (s : KangarooSolver) : Bool := s.solved

/-! ## DP publication (kangaroo_solver.cpp lines 242-286) -/

/-- `KangarooSolver::add_distinguished_point`.  `tstamp` stands for the
`get_elapsed_time()` call.  On a hit of opposite kind the collision
counter is incremented, the candidate key is the plain difference of the
stored distances (tame minus wild, `bigint_subtract`, no reduction mod n),
and it is accepted exactly when `point_multiply` of it reproduces the
target, in which case it is stored in `solution_key`. -/
def add_distinguished_point (s : KangarooSolver) (p : Point)
    (distance : Nat) (is_tame : Bool) (tstamp : Nat) : Bool × KangarooSolver :=
  match s.dp_table.lookup (point_key p) with
  | some existing =>
    if existing.is_tame != is_tame then
      let s1 := { s with total_collisions := s.total_collisions + 1 }
      let key_diff : Int :=
        if is_tame then (distance : Int) - (existing.distance : Int)
        else (existing.distance : Int) - (distance : Int)
      let test_point := point_multiply key_diff secp256k1_g
      if point_equals test_point s.target_point then
        (true, { s1 with solution_key := key_diff })
      else (false, s1)
    else (false, s)
  | none =>
    (false, { s with
      dp_table := (point_key p, ⟨p, distance, is_tame, tstamp⟩) :: s.dp_table,
      total_distinguished_points := s.total_distinguished_points + 1 })

/-- The distinguished-point branch of the worker loops
(`tame_kangaroo` lines 149-156, `wild_kangaroo` lines 196-203): when
`add_distinguished_point` reports a collision the worker sets `solved`
and then assigns `solution_key = distance` — its own walk distance —
overwriting the verified key that `add_distinguished_point` stored. -/
def worker_publish (s : KangarooSolver) (p : Point)
    (distance : Nat) (is_tame : Bool) (tstamp : Nat) : KangarooSolver :=
  let res := add_distinguished_point s p distance is_tame tstamp
  if res.1 then { res.2 with solved := true, solution_key := (distance : Int) }
  else res.2

/-! ## Stats (kangaroo_solver.cpp lines 366-389) -/

structure KangarooStats where
  total_jumps : Nat
  distinguished_points : Nat
  collisions_found : Nat
  elapsed_time : Nat
  threads_active : Nat
  current_range_start : String
  current_range_end : String
  found_key : String
  is_solved : Bool
deriving DecidableEq

/-- `KangarooSolver::get_stats`; `now` stands for the steady clock.  The
struct is zero-initialised, so `found_key` is the empty string unless
`solved` is set. -/
def get_stats (s : KangarooSolver) (now : Nat) : KangarooStats :=
  { total_jumps := s.total_jumps
    distinguished_points := s.total_distinguished_points
    collisions_found := s.total_collisions
    elapsed_time := now - s.start_time
    threads_active := if s.running then s.num_threads else 0
    current_range_start := bigint_to_hex s.range_start
    current_range_end := bigint_to_hex s.range_end
    found_key := if s.solved then int_to_hex s.solution_key else ""
    is_solved := s.solved }

/-! ## Checkpoint codec (checkpoint.h, checkpoint.cpp)

`save_checkpoint_data` is the `CheckpointData` record composed by
`CheckpointManager::save_checkpoint` (checkpoint.cpp lines 21-54): the
metadata comes from `get_stats`, `distinguished_bits` is the hard-coded
default 20 (source comment: "Default value, should be stored in solver"),
and the four `dp_*` vectors are never populated — the written JSON always
carries an empty `distinguished_points` array.  `write_json_checkpoint` /
`read_json_checkpoint` write and read exactly these fields, so a parse of
the written file returns this very record; file I/O success is assumed.

`load_checkpoint` (checkpoint.cpp lines 56-82) parses and logs but — per
its own comment "In a complete implementation, we would restore the solver
state" — never touches the solver, which the model makes explicit by
returning the solver unchanged. -/

structure CheckpointData where
  version : String
  timestamp : Nat
  total_jumps : Nat
  distinguished_points_count : Nat
  range_start : String
  range_end : String
  num_threads : Nat
  distinguished_bits : Nat
  dp_points : List String
  dp_distances : List String
  dp_is_tame : List Bool
  dp_timestamps : List Nat
deriving DecidableEq

def save_checkpoint_data (s : KangarooSolver) (wall now : Nat) : CheckpointData :=
  let stats := get_stats s now
  { version := "1.0.0"
    timestamp := wall
    total_jumps := stats.total_jumps
    distinguished_points_count := stats.distinguished_points
    range_start := stats.current_range_start
    range_end := stats.current_range_end
    num_threads := stats.threads_active
    distinguished_bits := 20
    dp_points := []
    dp_distances := []
    dp_is_tame := []
    dp_timestamps := [] }

def load_checkpoint (s : KangarooSolver) (_d : CheckpointData) :
    Bool × KangarooSolver :=
  (true, s)

/-! ## The C interface (kangaroo_solver.cpp lines 399-436)

`g_solver` is the `Option KangarooSolver`.  Note that `kangaroo_init`
installs the freshly constructed instance *before* running `initialize`,
so the instance remains installed even when initialisation fails.
`ptr_valid` / `fn_valid` model the null checks on the out-pointer and
file-name arguments. -/

def kangaroo_init (_g : Option KangarooSolver)
    (pubkey range_start_hex range_end_hex : String)
    (threads dist_bits : Int) : Bool × Option KangarooSolver :=
  let s0 : KangarooSolver := {}
  let res := init_solver s0 pubkey range_start_hex range_end_hex threads dist_bits
  (res.1, some res.2)

def kangaroo_start (g : Option KangarooSolver) (now : Nat) :
    Bool × Option KangarooSolver :=
  match g with
  | none => (false, none)
  | some s =>
    let res := start s now
    (res.1, some res.2)

def kangaroo_stop (g : Option KangarooSolver) : Option KangarooSolver :=
  match g with
  | none => none
  | some s => some (stop s)

def kangaroo_get_stats (g : Option KangarooSolver) (ptr_valid : Bool)
    (now : Nat) : Bool × Option KangarooStats :=
  match g with
  | none => (false, none)
  | some s => if ptr_valid then (true, some (get_stats s now)) else (false, none)

def kangaroo_save_checkpoint (g : Option KangarooSolver) (fn_valid : Bool) :
    Bool :=
  match g with
  | none => false
  | some _ => fn_valid

def kangaroo_load_checkpoint (g : Option KangarooSolver) (fn_valid : Bool) :
    Bool :=
  match g with
  | none => false
  | some _ => fn_valid

/-! ## Concrete instances used by the claim checks -/

def g_x_hex : String :=
  "79BE667EF9DCBBAC55A06295CE870B07029BFCDB2DCE28D959F2815B16F81798"

def g_y_hex : String :=
  "483ADA7726A3C4655DA4FBFC0E1108A8FD17B448A68554199C47D08FFB10D4B8"

/-- The generator's uncompressed public key in the standard 130-char
`04`-prefixed form. -/
def g_pubkey_130 : String := "04" ++ g_x_hex ++ g_y_hex

/-- The generator's raw `x||y` form (128 chars, no prefix). -/
def g_pubkey_128 : String := g_x_hex ++ g_y_hex

/-- A compressed public key: `02` prefix and the generator's x. -/
def g_compressed_66 : String := "02" ++ g_x_hex

/-- Scenario for C1: target `[42]G`; a tame walker stored the DP
`(P, 100)` with `P = [100]G`; a wild walker at distance 58 sits on the
same point, since `target + [58]G = [42+58]G = P`. -/
def c1_target : Point := point_multiply 42 secp256k1_g

def c1_p : Point := point_multiply 100 secp256k1_g

def c1_solver : KangarooSolver :=
  { target_point := c1_target,
    dp_table := [(point_key c1_p, ⟨c1_p, 100, true, 0⟩)] }

/-- State after the wild worker's publish step in the C1 scenario. -/
def c1_after : KangarooSolver := worker_publish c1_solver c1_p 58 false 0

/-- Scenario for the C2 counterexample: target `G = [1]G`; the table
holds a tame DP at distance 1 on the key of `G`; a wild publish arrives
with distance `n` (the curve order), so the true key difference is
`1 - n ≡ 1 (mod n)`. -/
def c2_solver : KangarooSolver :=
  { target_point := secp256k1_g,
    dp_table := [(point_key secp256k1_g, ⟨secp256k1_g, 1, true, 0⟩)] }

/-- The candidate key as the claim states it: `(d_T - d_W) mod n`. -/
def c2_claim_k : Int := Int.emod ((1 : Int) - (secp256k1_n : Int)) (secp256k1_n : Int)

/-- Witness scenario for the amended C2: target `[2]G`, wild DP at
distance 1 on the key of `G`, tame publish at distance 3. -/
def c2w_solver : KangarooSolver :=
  { target_point := point_multiply 2 secp256k1_g,
    dp_table := [(point_key secp256k1_g, ⟨secp256k1_g, 1, false, 0⟩)] }

/-- Engine state for the C4 check: one DP entry, non-default dp bits,
some accumulated jumps, not running. -/
def c4_solver : KangarooSolver :=
  { total_jumps := 5, total_distinguished_points := 1,
    distinguished_bits := 16, num_threads := 2,
    dp_table := [((1, 2), ⟨Point.affine 1 2, 10, true, 0⟩)] }

/-- The checkpoint record `save_checkpoint` composes for `c4_solver`
(wall-clock 99, elapsed-clock 7). -/
def c4_data : CheckpointData := save_checkpoint_data c4_solver 99 7

/-- The engine after `kangaroo_init` with a malformed public key:
the instance is installed even though initialisation failed. -/
def c10_after_bad_init : Bool × Option KangarooSolver :=
  kangaroo_init none ("zz") ("1") ("2") 2 16

/-- A concrete successful initialisation for the C6 witness: the
generator as target (raw 128-char form, the only uncompressed form the
decoder accepts), range `[0, 0x100)`, 2 threads, 16 dp bits. -/
def c6w_init : Bool × KangarooSolver :=
  init_solver {} g_pubkey_128 ("0") ("100") 2 16

/-! ## Helper lemmas about the hex-digit machinery -/

theorem hex_digits_f_small (f m : Nat) (h : m < 16) : hex_digits_f f m = [m] := by
  cases f with
  | zero => simp [hex_digits_f, Nat.mod_eq_of_lt h]
  | succ f => simp [hex_digits_f, h]

theorem hex_digits_f_fuel (n : Nat) : ∀ f, n ≤ f → hex_digits_f f n = hex_digits n := by
  induction n using Nat.strong_induction_on with
  | _ n ih =>
    intro f hf
    by_cases h16 : n < 16
    · rw [hex_digits_f_small f n h16, hex_digits, hex_digits_f_small n n h16]
    · push_neg at h16
      obtain ⟨f1, rfl⟩ : ∃ f1, f = f1 + 1 := ⟨f - 1, by omega⟩
      obtain ⟨m, rfl⟩ : ∃ m, n = m + 1 := ⟨n - 1, by omega⟩
      have hdiv : (m + 1) / 16 < m + 1 := Nat.div_lt_self (by omega) (by omega)
      have lhs : hex_digits_f (f1 + 1) (m + 1)
          = hex_digits_f f1 ((m + 1) / 16) ++ [(m + 1) % 16] := by
        simp only [hex_digits_f]
        rw [if_neg (by omega : ¬ m + 1 < 16)]
      have rhs : hex_digits (m + 1)
          = hex_digits_f m ((m + 1) / 16) ++ [(m + 1) % 16] := by
        rw [hex_digits]
        simp only [hex_digits_f]
        rw [if_neg (by omega : ¬ m + 1 < 16)]
      rw [lhs, rhs, ih ((m + 1) / 16) hdiv f1 (by omega),
        ih ((m + 1) / 16) hdiv m (by omega)]

theorem hex_digits_small {n : Nat} (h : n < 16) : hex_digits n = [n] :=
  hex_digits_f_small n n h

theorem hex_digits_step {n : Nat} (h : 16 ≤ n) :
    hex_digits n = hex_digits (n / 16) ++ [n % 16] := by
  obtain ⟨m, rfl⟩ : ∃ m, n = m + 1 := ⟨n - 1, by omega⟩
  have step : hex_digits (m + 1)
      = hex_digits_f m ((m + 1) / 16) ++ [(m + 1) % 16] := by
    rw [hex_digits]
    simp only [hex_digits_f]
    rw [if_neg (by omega : ¬ m + 1 < 16)]
  rw [step, hex_digits_f_fuel ((m + 1) / 16) m
    (by have := Nat.div_lt_self (show 0 < m + 1 by omega) (show 1 < 16 by omega); omega)]

theorem length_hex_digits (n : Nat) : (hex_digits n).length = Nat.log 16 n + 1 := by
  induction n using Nat.strong_induction_on with
  | _ n ih =>
    by_cases h16 : n < 16
    · rw [hex_digits_small h16, Nat.log_of_lt h16]
      rfl
    · push_neg at h16
      have hdiv : n / 16 < n := Nat.div_lt_self (by omega) (by omega)
      rw [hex_digits_step h16, List.length_append, ih (n / 16) hdiv]
      have h1 : Nat.log 16 (n / 16) = Nat.log 16 n - 1 := Nat.log_div_base 16 n
      have h2 : 0 < Nat.log 16 n := Nat.log_pos (by norm_num) h16
      simp only [List.length_singleton]
      omega

theorem of_hex_be_append (l : List Nat) (d : Nat) :
    of_hex_be (l ++ [d]) = 16 * of_hex_be l + d := by
  simp [of_hex_be, List.foldl_append]

theorem drop_append_of_le {α : Type} :
    ∀ (l1 l2 : List α) (n : Nat), n ≤ l1.length → (l1 ++ l2).drop n = l1.drop n ++ l2 := by
  intro l1
  induction l1 with
  | nil =>
    intro l2 n h
    simp at h
    subst h
    simp
  | cons a t ih =>
    intro l2 n h
    cases n with
    | zero => simp
    | succ m =>
      simp only [List.cons_append, List.drop_succ_cons]
      exact ih l2 m (by simpa using h)

/-- The last `k` hex digits of `n` (what the solver's `substr` plus
`stoull`/`stoi` parse) denote `n mod 16^k`. -/
theorem of_hex_be_drop (n : Nat) :
    ∀ k, of_hex_be ((hex_digits n).drop ((hex_digits n).length - k)) = n % 16 ^ k := by
  induction n using Nat.strong_induction_on with
  | _ n ih =>
    intro k
    by_cases h16 : n < 16
    · rw [hex_digits_small h16]
      cases k with
      | zero => simp [of_hex_be, Nat.mod_one]
      | succ k' =>
        have hlt : n < 16 ^ (k' + 1) := by
          have hle : (16 : Nat) ^ 1 ≤ 16 ^ (k' + 1) :=
            Nat.pow_le_pow_right (by omega) (by omega)
          have h1 : (16 : Nat) ^ 1 = 16 := pow_one 16
          omega
        have h0 : ([n] : List Nat).length - (k' + 1) = 0 := by simp
        rw [h0, List.drop_zero]
        simp [of_hex_be, Nat.mod_eq_of_lt hlt]
    · push_neg at h16
      have hdiv : n / 16 < n := Nat.div_lt_self (by omega) (by omega)
      rw [hex_digits_step h16]
      cases k with
      | zero =>
        rw [Nat.sub_zero, List.drop_eq_nil_of_le (le_refl _)]
        simp [of_hex_be, Nat.mod_one]
      | succ k' =>
        rw [List.length_append]
        have hsub : (hex_digits (n / 16)).length + ([n % 16] : List Nat).length - (k' + 1)
            = (hex_digits (n / 16)).length - k' := by
          simp only [List.length_singleton]
          omega
        rw [hsub, drop_append_of_le _ _ _ (Nat.sub_le _ _), of_hex_be_append,
          ih (n / 16) hdiv k']
        have hp : (16 : Nat) ^ (k' + 1) = 16 * 16 ^ k' := by ring
        rw [hp, Nat.mod_mul]
        omega

/-- The hex string of `n` has at least `k+1` characters iff `16^k ≤ n`
(for `k ≥ 1`). -/
theorem hex_len_ge_iff (n k : Nat) (hk : 1 ≤ k) :
    k + 1 ≤ (hex_digits n).length ↔ 16 ^ k ≤ n := by
  rw [length_hex_digits]
  rcases Nat.eq_zero_or_pos n with hn | hn
  · subst hn
    rw [Nat.log_zero_right]
    have h16k : 0 < 16 ^ k := Nat.pow_pos (by norm_num)
    constructor
    · intro h; omega
    · intro h; omega
  · rw [Nat.pow_le_iff_le_log (by norm_num) (by omega)]
    omega

/-! ## Helper lemmas about the jump table -/

theorem pjd_length (rs re : Nat) : (precompute_jump_distances rs re).length = 256 := by
  simp [precompute_jump_distances]

theorem pjp_length (rs re : Nat) : (precompute_jump_points rs re).length = 256 := by
  rw [precompute_jump_points, List.length_map, pjd_length]

theorem pjd_get (rs re i : Nat) (h : i < 256) :
    (precompute_jump_distances rs re)[i]? = some (2 ^ base_jump_bits rs re + (i + 1)) := by
  simp [precompute_jump_distances, List.getElem?_range h]

theorem pjp_get (rs re i : Nat) (h : i < 256) :
    (precompute_jump_points rs re)[i]?
      = some (point_multiply (Int.ofNat (2 ^ base_jump_bits rs re + (i + 1))) secp256k1_g) := by
  rw [precompute_jump_points, List.getElem?_map, pjd_get rs re i h]
  rfl

/-! ## Identity laws of the curve model

These are the identity/consistency laws from the spec's curve-law list
that the embedding settles directly.  (The remaining laws of that list —
`mul(n, P) = O` for every valid `P` and on-curve closure of `mul(k, G)`
for every `k` — are genuine number-theoretic facts about secp256k1 whose
proofs need the primality of `p` and the group order of the curve; they
are beyond an executable development and are left open, see claim C9.) -/

theorem point_add_infinity_left (p : Point) : point_add Point.infinity p = p := by
  cases p <;> rfl

theorem point_add_infinity_right (p : Point) : point_add p Point.infinity = p := by
  cases p <;> rfl

theorem point_add_self_eq_double (p : Point) : point_add p p = point_double p := by
  cases p with
  | infinity => rfl
  | affine x y => simp [point_add]

theorem point_multiply_zero (x y : Nat) :
    point_multiply 0 (Point.affine x y) = Point.infinity := rfl

theorem point_multiply_one (x y : Nat) :
    point_multiply 1 (Point.affine x y) = Point.affine x y := rfl

/-- Adding a valid affine point and its negation `(x, p - y)` yields the
point at infinity: for `y = 0` the points coincide and `point_double`
returns infinity; otherwise the equal-x unequal-y branch fires (`p` is
odd, so `y ≠ p - y`). -/
theorem point_add_neg (x y : Nat) (hy : y < secp256k1_p) :
    point_add (Point.affine x y)
      (Point.affine x ((secp256k1_p - y) % secp256k1_p)) = Point.infinity := by
  rcases Nat.eq_zero_or_pos y with h0 | h0
  · subst h0
    have hp : (secp256k1_p - 0) % secp256k1_p = 0 := by
      rw [Nat.sub_zero, Nat.mod_self]
    rw [hp]
    simp [point_add, point_double]
  · have hodd : secp256k1_p % 2 = 1 := by decide
    have hmod : (secp256k1_p - y) % secp256k1_p = secp256k1_p - y :=
      Nat.mod_eq_of_lt (by omega)
    have hne : y ≠ (secp256k1_p - y) % secp256k1_p := by
      rw [hmod]
      omega
    simp [point_add, hne]

/-! ## Claim C1 -/

/-- Claim C1 (code bug, evaluated): in the scenario target `[42]G` with a
tame DP `([100]G, 100)` stored, a wild publish at distance 58 on the same
point is verified inside `add_distinguished_point` — the call returns
`true`, stores the verified key 42, and `mul(42, G)` is the target — but
the worker's collision branch then overwrites `solution_key` with its own
walk distance 58 before `solved` is reported: the final state has
`solved = true` with `solution_key = 58`, `mul(solution_key, G)` is not
the target, and stats report `found_key = "3A"`, not the verified "2A".
So `solved` does not imply that the stored solution is the verified key,
the solution is changed after being set, and the "found_key == 2A"
scenario fails. -/
theorem c1_solved_solution_overwritten :
    (add_distinguished_point c1_solver c1_p 58 false 0).1 = true
    ∧ (add_distinguished_point c1_solver c1_p 58 false 0).2.solution_key = 42
    ∧ point_equals (point_multiply 42 secp256k1_g) c1_target = true
    ∧ c1_after.solved = true
    ∧ c1_after.solution_key = 58
    ∧ point_equals (point_multiply c1_after.solution_key secp256k1_g) c1_after.target_point
        = false
    ∧ (get_stats c1_after 0).is_solved = true
    ∧ (get_stats c1_after 0).found_key = "3A"
    ∧ (get_stats c1_after 0).found_key ≠ "2A" := by
  decide

/-! ## Claim C2 -/

/-- Claim C2 counterexample: with target `G`, a stored tame DP of distance
`d_T = 1` on the key of `G`, and a wild publish of distance `d_W = n`
(the curve order), the claim's candidate key `(d_T - d_W) mod n = 1`
satisfies `mul(1, G) = G = target`, yet the call returns `false`: the code
subtracts without reducing mod n, gets the negative `1 - n`, and
`point_multiply` of a negative scalar yields infinity, failing the
verification.  The claimed "returns true iff `mul((d_T - d_W) mod n, G) =
target`" is therefore false. -/
theorem c2_counterexample :
    (add_distinguished_point c2_solver secp256k1_g secp256k1_n false 0).1 = false
    ∧ point_equals (point_multiply c2_claim_k secp256k1_g) c2_solver.target_point = true := by
  decide

/-- Claim C2 (amended): for every publish that finds an existing entry of
opposite kind for the same point key, the candidate key is the plain
integer difference `k = d_T - d_W` (tame distance minus wild distance,
no reduction mod n), the call returns `true` iff `point_multiply k G`
equals the target exactly, and on success that difference is what is
stored in `solution_key`. -/
theorem c2_publish_key_difference (s : KangarooSolver) (p : Point) (d : Nat)
    (tame : Bool) (ts : Nat) (e : DistinguishedPoint)
    (hfind : s.dp_table.lookup (point_key p) = some e)
    (hkind : e.is_tame ≠ tame) :
    ((add_distinguished_point s p d tame ts).1 =
      point_equals
        (point_multiply
          (if tame then (d : Int) - (e.distance : Int) else (e.distance : Int) - (d : Int))
          secp256k1_g)
        s.target_point)
    ∧ ((add_distinguished_point s p d tame ts).1 = true →
      (add_distinguished_point s p d tame ts).2.solution_key =
        (if tame then (d : Int) - (e.distance : Int) else (e.distance : Int) - (d : Int))) := by
  have hbne : (e.is_tame != tame) = true := by simpa [bne_iff_ne] using hkind
  unfold add_distinguished_point
  rw [hfind]
  dsimp only
  cases hpe : point_equals
      (point_multiply
        (if tame then (d : Int) - (e.distance : Int) else (e.distance : Int) - (d : Int))
        secp256k1_g)
      s.target_point with
  | true => simp [hbne, hpe]
  | false => simp [hbne, hpe]

/-- Witness for the amended C2 at a concrete input: target `[2]G`, wild
DP of distance 1 stored on the key of `G`, tame publish at distance 3 —
the difference `3 - 1 = 2` verifies, the call returns `true` and stores 2. -/
theorem c2_publish_key_difference_witness :
    (add_distinguished_point c2w_solver secp256k1_g 3 true 0).1 = true
    ∧ (add_distinguished_point c2w_solver secp256k1_g 3 true 0).2.solution_key = 2 := by
  have h := c2_publish_key_difference c2w_solver secp256k1_g 3 true 0
    ⟨secp256k1_g, 1, false, 0⟩ (by decide) (by decide)
  have h1 : (add_distinguished_point c2w_solver secp256k1_g 3 true 0).1 = true := by
    rw [h.1]
    decide
  refine ⟨h1, ?_⟩
  have h2 := h.2 h1
  rw [h2]
  decide

/-! ## Claim C3 -/

/-- Claim C3 (code bug, evaluated): `hex_to_point` rejects the standard
130-char `04`-prefixed uncompressed encoding of the generator (its
"uncompressed" branch demands exactly 128 chars with no prefix, which it
does accept when they satisfy the curve equation), and it accepts the
66-char compressed `02`-prefixed input, returning a point with the
placeholder y-coordinate 1 that does not lie on the curve — no curve
check and no modular square root is performed.  Both directions of the
claim fail. -/
theorem c3_hex_to_point_divergence :
    hex_to_point g_pubkey_130 = none
    ∧ hex_to_point g_compressed_66 = some (Point.affine secp256k1_gx 1)
    ∧ point_is_on_curve (Point.affine secp256k1_gx 1) = false
    ∧ hex_to_point g_pubkey_128 = some secp256k1_g
    ∧ point_is_on_curve secp256k1_g = true := by
  decide

/-! ## Claim C4 -/

/-- Claim C4 (code bug, evaluated): the checkpoint record composed by
`save_checkpoint` for an engine with one DP entry carries
`distinguished_points_count = 1` but an empty `distinguished_points`
array (the dp vectors are never populated), hard-codes
`distinguished_bits = 20` although the engine is configured with 16, and
stores `num_threads = 0` (the stats `threads_active` of a stopped
engine) although the engine has 2; and `load_checkpoint` returns success
while leaving the loaded-into engine completely unchanged, so the DP
table and counters do not reflect the snapshot. -/
theorem c4_checkpoint_not_restored :
    c4_data.distinguished_points_count = 1
    ∧ c4_data.dp_points = []
    ∧ c4_data.dp_distances = []
    ∧ c4_data.dp_is_tame = []
    ∧ c4_data.dp_timestamps = []
    ∧ c4_solver.dp_table ≠ []
    ∧ c4_data.distinguished_bits = 20
    ∧ c4_solver.distinguished_bits = 16
    ∧ c4_data.num_threads = 0
    ∧ c4_solver.num_threads = 2
    ∧ c4_data.total_jumps = 5
    ∧ load_checkpoint ({} : KangarooSolver) c4_data = (true, ({} : KangarooSolver))
    ∧ (load_checkpoint ({} : KangarooSolver) c4_data).2.total_jumps = 0
    ∧ (load_checkpoint ({} : KangarooSolver) c4_data).2.dp_table = [] := by
  decide

/-! ## Claim C5 -/

/-- Claim C5 counterexample: the point with x-coordinate 256 satisfies
`x mod 2^8 = 0`, yet `is_distinguished` returns `false` with mask
`2^8 - 1`, because the hex string "100" of 256 has fewer than 8
characters and the predicate then returns `false` unconditionally. -/
theorem c5_counterexample :
    is_distinguished (Point.affine 256 7) (2 ^ 8 - 1) = false ∧ 256 % 2 ^ 8 = 0 := by
  decide

/-- Claim C5 (amended): for every non-infinity point and every configured
`b ∈ [8, 32]`, if `x(P) ≥ 2^28` (hex string of at least 8 characters)
then `is_distinguished(P)` is true iff `x(P) mod 2^b = 0`; points with
`x(P) < 2^28` are never distinguished. -/
theorem c5_distinguished_iff_low_bits_zero (x y b : Nat)
    (_hb1 : 8 ≤ b) (hb2 : b ≤ 32) :
    (2 ^ 28 ≤ x →
      (is_distinguished (Point.affine x y) (2 ^ b - 1) = true ↔ x % 2 ^ b = 0))
    ∧ (x < 2 ^ 28 → is_distinguished (Point.affine x y) (2 ^ b - 1) = false) := by
  have hpow : (16 : Nat) ^ 7 = 2 ^ 28 := by norm_num
  have hlen8 : 8 ≤ (hex_digits x).length ↔ 2 ^ 28 ≤ x := by
    rw [← hpow]
    exact hex_len_ge_iff x 7 (by omega)
  constructor
  · intro hx
    have h8 : 8 ≤ (hex_digits x).length := hlen8.mpr hx
    show is_distinguished_x x (2 ^ b - 1) = true ↔ x % 2 ^ b = 0
    unfold is_distinguished_x
    rw [if_pos h8, of_hex_be_drop x 8]
    have h2 : (16 : Nat) ^ 8 = 2 ^ 32 := by norm_num
    rw [h2, Nat.and_pow_two_sub_one_eq_mod,
      Nat.mod_mod_of_dvd _ (pow_dvd_pow 2 hb2)]
    simp
  · intro hx
    have h8 : ¬ 8 ≤ (hex_digits x).length := by
      rw [hlen8]
      omega
    show is_distinguished_x x (2 ^ b - 1) = false
    unfold is_distinguished_x
    rw [if_neg h8]

/-- Witness for the amended C5 at a concrete input: `x = 2^32` has low 8
bits zero and at least 8 hex digits, so it is distinguished at `b = 8`. -/
theorem c5_distinguished_iff_low_bits_zero_witness :
    is_distinguished (Point.affine (2 ^ 32) 0) (2 ^ 8 - 1) = true :=
  ((c5_distinguished_iff_low_bits_zero (2 ^ 32) 0 8 (by norm_num) (by norm_num)).1
    (by norm_num)).mpr (by decide)

/-! ## Claim C6 -/

/-- Claim C6 (confirmed): after a successful `initialize`, the jump table
has exactly 256 entries, entry `i` has distance
`2 ^ max(1, r/2 - 8) + (i + 1)` where `r` is the bit length of
`range_end - range_start` (as `mpz_sizeinbase` base 2 computes it), and
the precomputed point of entry `i` is `point_multiply` of that distance
applied to the generator. -/
theorem c6_jump_table_spec (s : KangarooSolver) (pk rsh reh : String)
    (t b : Int) (s' : KangarooSolver)
    (h : init_solver s pk rsh reh t b = (true, s')) :
    s'.jump_distances.length = 256 ∧ s'.jump_points.length = 256 ∧
    ∀ i, i < 256 →
      s'.jump_distances[i]?
        = some (2 ^ (max 1 ((size_in_base2 (s'.range_end - s'.range_start) : Int) / 2 - 8)).toNat
            + (i + 1))
      ∧ s'.jump_points[i]?
        = some (point_multiply
            (Int.ofNat
              (2 ^ (max 1 ((size_in_base2 (s'.range_end - s'.range_start) : Int) / 2 - 8)).toNat
                + (i + 1)))
            secp256k1_g) := by
  unfold init_solver at h
  cases hp : hex_to_point pk with
  | none =>
    rw [hp] at h
    exact absurd (congrArg Prod.fst h) (by simp)
  | some pt =>
    rw [hp] at h
    dsimp only at h
    by_cases hre : hex_to_bigint reh ≤ hex_to_bigint rsh
    · rw [if_pos hre] at h
      exact absurd (congrArg Prod.fst h) (by simp)
    · rw [if_neg hre] at h
      have hs' := (Prod.mk.injEq _ _ _ _).mp h
      obtain ⟨-, hs2⟩ := hs'
      subst hs2
      refine ⟨pjd_length _ _, pjp_length _ _, ?_⟩
      intro i hi
      constructor
      · rw [pjd_get _ _ _ hi]
        rfl
      · rw [pjp_get _ _ _ hi]
        rfl

/-- Witness for C6 at a concrete successful initialisation (generator
target, range `[0, 0x100)`): the table has 256 distances, the first is
`2^1 + 1 = 3` and the last is `2^1 + 256 = 258`. -/
theorem c6_jump_table_spec_witness :
    c6w_init.2.jump_distances.length = 256
    ∧ c6w_init.2.jump_points.length = 256
    ∧ c6w_init.2.jump_distances[0]? = some 3
    ∧ c6w_init.2.jump_distances[255]? = some 258 := by
  have h : init_solver {} g_pubkey_128 ("0") ("100") 2 16 = (true, c6w_init.2) := rfl
  have hc := c6_jump_table_spec {} g_pubkey_128 ("0") ("100") 2 16 c6w_init.2 h
  refine ⟨hc.1, hc.2.1, ?_, ?_⟩
  · rw [(hc.2.2 0 (by norm_num)).1]
    decide
  · rw [(hc.2.2 255 (by norm_num)).1]
    decide

/-! ## Claim C7 -/

/-- Claim C7 counterexample: the point with x-coordinate 5 (hex string
"5", a single character) gets jump index 0 from the code, while the claim
demands `x mod 256 = 5`. -/
theorem c7_counterexample :
    get_jump_index (Point.affine 5 9) = 0 ∧ 5 % 256 = 5
    ∧ get_jump_index (Point.affine 5 9) ≠ 5 % 256 := by
  decide

/-- Claim C7 (amended): for every non-infinity point with `x(P) ≥ 16`
(hex string of at least two characters) the jump index is `x(P) mod 256`;
for `x(P) < 16` it is 0; and in all cases the index is a pure function of
the x-coordinate alone (points with equal x get equal indices). -/
theorem c7_jump_index_eq_x_mod_256 (x y1 y2 : Nat) :
    (16 ≤ x → get_jump_index (Point.affine x y1) = x % 256)
    ∧ (x < 16 → get_jump_index (Point.affine x y1) = 0)
    ∧ get_jump_index (Point.affine x y1) = get_jump_index (Point.affine x y2) := by
  have hlen2 : 2 ≤ (hex_digits x).length ↔ 16 ≤ x := by
    have := hex_len_ge_iff x 1 (le_refl 1)
    simpa using this
  refine ⟨?_, ?_, rfl⟩
  · intro hx
    have h2 : 2 ≤ (hex_digits x).length := hlen2.mpr hx
    show get_jump_index_x x = x % 256
    unfold get_jump_index_x
    rw [if_pos h2, of_hex_be_drop x 2]
    have h256 : (16 : Nat) ^ 2 = 256 := by norm_num
    rw [h256, Nat.mod_mod_of_dvd _ dvd_rfl]
  · intro hx
    have h2 : ¬ 2 ≤ (hex_digits x).length := by
      rw [hlen2]
      omega
    show get_jump_index_x x = 0
    unfold get_jump_index_x
    rw [if_neg h2]

/-- Witness for the amended C7 at a concrete input: `x = 300 = 0x12C`,
whose jump index is `300 mod 256 = 44`. -/
theorem c7_jump_index_eq_x_mod_256_witness :
    get_jump_index (Point.affine 300 0) = 44 := by
  have h := (c7_jump_index_eq_x_mod_256 300 0 0).1 (by norm_num)
  rw [h]

/-! ## Claim C8 -/

/-- Claim C8 (confirmed): `start` on a running engine returns `false` and
changes nothing; on a stopped engine it sets `running`, clears `solved`,
records the start time, empties the DP table, zeroes the three counters,
spawns `num_threads` workers and returns `true`.  `stop` leaves
`is_running` false, joins (clears) all workers when the engine was
running, is the identity when it was not, and is idempotent. -/
theorem c8_start_stop_contract (s : KangarooSolver) (now : Nat) :
    (s.running = true → start s now = (false, s))
    ∧ (s.running = false →
        start s now = (true, { s with
          running := true, solved := false, start_time := now,
          dp_table := [], total_jumps := 0,
          total_distinguished_points := 0, total_collisions := 0,
          worker_threads := s.num_threads }))
    ∧ is_running (stop s) = false
    ∧ (s.running = true → (stop s).worker_threads = 0)
    ∧ (s.running = false → stop s = s)
    ∧ stop (stop s) = stop s := by
  cases hr : s.running <;> simp [start, stop, is_running, hr]

/-- Witness for C8 at concrete states: a running engine rejects `start`;
a fresh engine accepts it; `stop` on a running engine with 4 workers
leaves it not running with 0 workers; `stop` on a fresh engine is the
identity. -/
theorem c8_start_stop_contract_witness :
    start { running := true : KangarooSolver } 7
      = (false, { running := true : KangarooSolver })
    ∧ (start ({} : KangarooSolver) 7).1 = true
    ∧ is_running (stop { running := true, worker_threads := 4 : KangarooSolver }) = false
    ∧ (stop { running := true, worker_threads := 4 : KangarooSolver }).worker_threads = 0
    ∧ stop ({} : KangarooSolver) = ({} : KangarooSolver) := by
  refine ⟨(c8_start_stop_contract { running := true : KangarooSolver } 7).1 rfl, ?_,
    (c8_start_stop_contract { running := true, worker_threads := 4 : KangarooSolver } 7).2.2.1,
    (c8_start_stop_contract { running := true, worker_threads := 4 : KangarooSolver } 7).2.2.2.1 rfl,
    (c8_start_stop_contract ({} : KangarooSolver) 7).2.2.2.2.1 rfl⟩
  rw [(c8_start_stop_contract ({} : KangarooSolver) 7).2.1 rfl]

/-! ## Claim C10 -/

/-- Claim C10 counterexample: `kangaroo_init` installs the engine
instance before initialisation runs, so after an `init` call that fails
(here: malformed public key "zz"), no successful init has happened and
yet `kangaroo_start` returns `true` — refuting "before any successful
kangaroo_init ... kangaroo_start returns false". -/
theorem c10_counterexample :
    c10_after_bad_init.1 = false
    ∧ (kangaroo_start c10_after_bad_init.2 0).1 = true := by
  decide

/-- Claim C10 (amended): before any call to `kangaroo_init` at all — that
is, while no engine instance exists — every C-interface operation fails
safely: `kangaroo_start`, `kangaroo_save_checkpoint` and
`kangaroo_load_checkpoint` return `false`, `kangaroo_stop` returns
without effect, and `kangaroo_get_stats` returns `false` without writing
its output, also whenever its output pointer is null. -/
theorem c10_null_instance_safe (now : Nat) (ptr_valid fn_valid : Bool) :
    kangaroo_start none now = (false, none)
    ∧ kangaroo_stop none = none
    ∧ kangaroo_get_stats none ptr_valid now = (false, none)
    ∧ (∀ g : Option KangarooSolver, kangaroo_get_stats g false now = (false, none))
    ∧ kangaroo_save_checkpoint none fn_valid = false
    ∧ kangaroo_load_checkpoint none fn_valid = false := by
  refine ⟨rfl, rfl, rfl, ?_, rfl, rfl⟩
  intro g
  cases g with
  | none => rfl
  | some s => simp [kangaroo_get_stats]
